import Mathlib

/-!
Verification of the Hegic Greeks data pipeline (src/hegic_greeks.py).

Shallow embedding conventions:
* Numeric values are modelled as rationals (`ℚ`); the Python floats carry the
  same formulas, and the claims under study are structural/algebraic.
* A value that pandas records as NaN (missing) is modelled as `none` in
  `Option ℚ` (abbreviated `RVal`).
* Python exceptions are modelled with `Except String` (or `Except Unit` for
  exceptions whose message is irrelevant and which are swallowed by a bare
  `except:`).
* The two external HTTP endpoints are modelled by passing their responses as
  explicit inputs: a `QueryResponse` for the graph-query POST of `run_query`
  (line 38), and a rational `spot` for the spot price fetched in `__init__`
  (line 32).  The wall clock read `time.time()` (line 63) is the explicit
  parameter `now`.
* The external numerical library `py_vollib` is not part of this repository;
  its implied-volatility solver and its four Greek evaluators are parameters
  (`ivFn`, `GreekLib`).  Each such call may raise (modelled `.error`) or
  return a float that may itself be NaN (modelled `RVal`).
-/

/-- Missing-capable real value: `none` models a pandas/NumPy NaN. -/
abbrev RVal := Option ℚ

/-- Raw option record as delivered inside the subgraph JSON under
`data.options` (line 42).  `expiration` takes part in arithmetic in line 63
before any coercion, so it is numeric; `premium`, `amount` and `strike` are
semi-structured fields that line 66 pushes through `pd.to_numeric`:
`some q` models a value that coerces to the number `q`, `none` a value on
which `pd.to_numeric` raises. -/
structure RawOption where
  symbol : String
  status : String
  type : String
  expiration : ℚ
  premium : Option ℚ
  amount : Option ℚ
  strike : Option ℚ
deriving DecidableEq

/-- Response of the HTTP POST to the subgraph endpoint (line 38): its status
code and the record list found under `data.options` of its JSON body. -/
structure QueryResponse where
  status_code : Nat
  options : List RawOption
deriving DecidableEq

/-- Row of the cleaned table produced by `format_data`: the original columns
(with `premium`, `amount`, `strike` now numeric and `type` normalized) plus
the derived columns `time_to_expiry` (line 63) and `premium_usd` (line 73). -/
structure CleanOption where
  symbol : String
  status : String
  type : String
  expiration : ℚ
  premium : ℚ
  amount : ℚ
  strike : ℚ
  time_to_expiry : ℚ
  premium_usd : ℚ
deriving DecidableEq

/-- Lower-casing of `asset.lower()` (line 26), written over the character
list so it computes by kernel reduction; the two asset names the class
documents are ASCII, for which `Char.toLower` agrees with Python `lower`. -/
def str_lower (s : String) : String := ⟨s.data.map Char.toLower⟩

/-- Ticker selection of `GetData.__init__` (lines 26-30): lower-case the
asset name; `bitcoin` maps to `WBTC`, everything else to `ETH`. -/
def init_ticker (asset : String) : String :=
  if str_lower asset = "bitcoin" then "WBTC" else "ETH"

/-- Embedding of `GetData.run_query` (lines 34-44): on a non-200 status the
method raises `Exception("Query failed to run by returning code of {}. {}"
.format(status_code, query))`; on a 200 status it returns the record list
under `data.options` as a dataframe, unmodified. -/
def run_query (resp : QueryResponse) (query : String) : Except String (List RawOption) :=
  if resp.status_code ≠ 200 then
    Except.error ("Query failed to run by returning code of " ++
      toString resp.status_code ++ ". " ++ query)
  else
    Except.ok resp.options

/-- Column-wise numeric view of a raw record after `pd.to_numeric` succeeded
on its `premium`, `amount` and `strike` fields (line 66). -/
structure NumOption where
  symbol : String
  status : String
  type : String
  expiration : ℚ
  premium : ℚ
  amount : ℚ
  strike : ℚ
deriving DecidableEq

/-- Coercion of a single row's `premium`, `amount`, `strike` fields:
`none` when `pd.to_numeric` would raise on one of them. -/
def coerce_row (r : RawOption) : Option NumOption :=
  match r.premium, r.amount, r.strike with
  | some p, some a, some k =>
      some { symbol := r.symbol, status := r.status, type := r.type,
             expiration := r.expiration, premium := p, amount := a, strike := k }
  | _, _, _ => none

/-- Embedding of `df[numeric_columns].apply(pd.to_numeric)` (lines 65-66):
`pd.to_numeric` is applied eagerly to the whole columns, so a single value
that fails to coerce raises and aborts the entire call; no row-level
isolation exists. -/
def to_numeric : List RawOption → Except String (List NumOption)
  | [] => Except.ok []
  | r :: rs =>
    match coerce_row r with
    | none => Except.error "Unable to parse string"
    | some n =>
      match to_numeric rs with
      | Except.error e => Except.error e
      | Except.ok ns => Except.ok (n :: ns)

/-- Derived column `time_to_expiry` (line 63):
`((df.expiration - time.time())/(60*60*24))/(365)`. -/
def time_to_expiry_of (now expiration : ℚ) : ℚ :=
  ((expiration - now) / (60 * 60 * 24)) / 365

/-- Option-type normalization (line 71):
`np.where(df['type']=='CALL', 'c', 'p')`. -/
def normalize_type (t : String) : String :=
  if t = "CALL" then "c" else "p"

/-- Filter predicate of line 68-69:
`(df.symbol==self.ticker) & (df.status=="ACTIVE") & (df.time_to_expiry > 0)
& (df.strike > 0)`.  `time_to_expiry` was computed in line 63 from the
`expiration` column, which the numeric coercion leaves untouched, so it is
recomputed here from `expiration` with the same formula. -/
def keep_row (now : ℚ) (ticker : String) (r : NumOption) : Bool :=
  r.symbol == ticker && r.status == "ACTIVE" &&
    decide (time_to_expiry_of now r.expiration > 0) && decide (r.strike > 0)

/-- Cleaning body of `GetData.format_data` applied to an already-downloaded
dataframe (lines 62-74): derive `time_to_expiry`, coerce the numeric
columns, filter by `keep_row`, normalize the option type, and derive
`premium_usd = premium * spot / amount`. -/
def clean_rows (df : List RawOption) (now spot : ℚ) (ticker : String) :
    Except String (List CleanOption) :=
  match to_numeric df with
  | Except.error e => Except.error e
  | Except.ok rows =>
    Except.ok ((rows.filter (keep_row now ticker)).map (fun r =>
      { symbol := r.symbol, status := r.status,
        type := normalize_type r.type,
        expiration := r.expiration, premium := r.premium, amount := r.amount,
        strike := r.strike,
        time_to_expiry := time_to_expiry_of now r.expiration,
        premium_usd := r.premium * spot / r.amount }))

/-- Embedding of `GetData.format_data` (lines 46-74): download via
`run_query` (line 61), then clean. -/
def format_data (resp : QueryResponse) (query : String) (now spot : ℚ)
    (ticker : String) : Except String (List CleanOption) :=
  match run_query resp query with
  | Except.error e => Except.error e
  | Except.ok df => clean_rows df now spot ticker

/-- C4: for every query response whose HTTP status is not 200, `run_query`
raises an error whose message contains the status code and the original
query text and returns no table; for a 200 response it returns the record
list unmodified. -/
theorem run_query_status_spec (resp : QueryResponse) (query : String) :
    (resp.status_code ≠ 200 →
      (∃ pre mid, run_query resp query =
        Except.error (pre ++ toString resp.status_code ++ mid ++ query)) ∧
      ∀ df, run_query resp query ≠ Except.ok df) ∧
    (resp.status_code = 200 → run_query resp query = Except.ok resp.options) := by
  constructor
  · intro h
    constructor
    · exact ⟨"Query failed to run by returning code of ", ". ", by
        simp [run_query, h]⟩
    · intro df
      simp [run_query, h]
  · intro h
    simp [run_query, h]

/-- Witness for C4: a 500 response raises with the code and query embedded
in the message and yields no table, while a 200 response returns its
records unmodified. -/
theorem run_query_status_spec_witness :
    ((∃ pre mid, run_query ⟨500, []⟩ "q0" =
        Except.error (pre ++ toString (500 : Nat) ++ mid ++ "q0")) ∧
      ∀ df, run_query ⟨500, []⟩ "q0" ≠ Except.ok df) ∧
    run_query ⟨200, []⟩ "q0" = Except.ok [] :=
  ⟨(run_query_status_spec ⟨500, []⟩ "q0").1 (by decide),
   (run_query_status_spec ⟨200, []⟩ "q0").2 rfl⟩

/-- Sample raw record matching the spec's scenario: an ACTIVE CALL with
strike 2000, premium 0.05, amount 1 (expiration one year after `now = 0`). -/
def sample_raw : RawOption :=
  { symbol := "ETH", status := "ACTIVE", type := "CALL",
    expiration := 31536000, premium := some (1/20), amount := some 1,
    strike := some 2000 }

/-- Sample successful query response holding `sample_raw`. -/
def sample_resp : QueryResponse := ⟨200, [sample_raw]⟩

/-- Cleaned row obtained from `sample_raw` at `now = 0`, spot 2500,
ticker `ETH`: one year to expiry and a 125 USD premium. -/
def sample_clean : CleanOption :=
  { symbol := "ETH", status := "ACTIVE", type := "c",
    expiration := 31536000, premium := 1/20, amount := 1, strike := 2000,
    time_to_expiry := 1, premium_usd := 125 }

/-- Evaluation of `format_data` on the sample data. -/
theorem sample_format_eval :
    format_data sample_resp "q" 0 2500 "ETH" = Except.ok [sample_clean] := by
  have htte : time_to_expiry_of 0 31536000 = 1 := by
    norm_num [time_to_expiry_of]
  have hnum : to_numeric [sample_raw] = Except.ok
      [{ symbol := "ETH", status := "ACTIVE", type := "CALL",
         expiration := 31536000, premium := 1/20, amount := 1,
         strike := 2000 }] := rfl
  simp [format_data, run_query, clean_rows, sample_resp, hnum, keep_row,
    List.filter_cons, List.filter_nil, normalize_type, sample_clean, htte]
  norm_num

/-- C1: every row retained by `format_data` satisfies all four filter
conditions: status ACTIVE, positive time to expiry, positive strike, and
symbol equal to the configured ticker. -/
theorem format_data_retained_rows_sound (resp : QueryResponse) (query : String)
    (now spot : ℚ) (ticker : String) (out : List CleanOption)
    (hout : format_data resp query now spot ticker = Except.ok out) :
    ∀ o ∈ out, o.status = "ACTIVE" ∧ o.time_to_expiry > 0 ∧ o.strike > 0 ∧
      o.symbol = ticker := by
  intro o ho
  unfold format_data at hout
  split at hout
  · simp at hout
  · unfold clean_rows at hout
    split at hout
    · simp at hout
    · simp only [Except.ok.injEq] at hout
      subst hout
      simp only [List.mem_map, List.mem_filter] at ho
      obtain ⟨r, ⟨_hr, hkeep⟩, rfl⟩ := ho
      unfold keep_row at hkeep
      simp only [Bool.and_eq_true, beq_iff_eq, decide_eq_true_eq] at hkeep
      obtain ⟨⟨⟨hsym, hstat⟩, htte⟩, hstr⟩ := hkeep
      exact ⟨hstat, htte, hstr, hsym⟩

/-- Witness for C1: the sample cleaned row satisfies the four conditions. -/
theorem format_data_retained_rows_sound_witness :
    sample_clean.status = "ACTIVE" ∧ sample_clean.time_to_expiry > 0 ∧
      sample_clean.strike > 0 ∧ sample_clean.symbol = "ETH" :=
  format_data_retained_rows_sound sample_resp "q" 0 2500 "ETH" [sample_clean]
    sample_format_eval sample_clean (by simp)

/-- C5: every row retained by `format_data` carries
`time_to_expiry = ((expiration - now)/(60*60*24))/365` and
`premium_usd = premium * spot / amount`. -/
theorem format_data_derived_fields (resp : QueryResponse) (query : String)
    (now spot : ℚ) (ticker : String) (out : List CleanOption)
    (hout : format_data resp query now spot ticker = Except.ok out) :
    ∀ o ∈ out,
      o.time_to_expiry = ((o.expiration - now) / (60 * 60 * 24)) / 365 ∧
      o.premium_usd = o.premium * spot / o.amount := by
  intro o ho
  unfold format_data at hout
  split at hout
  · simp at hout
  · unfold clean_rows at hout
    split at hout
    · simp at hout
    · simp only [Except.ok.injEq] at hout
      subst hout
      simp only [List.mem_map, List.mem_filter] at ho
      obtain ⟨r, _, rfl⟩ := ho
      exact ⟨rfl, rfl⟩

/-- Witness for C5: on the sample row (premium 0.05, amount 1, spot 2500,
expiration one year out at `now = 0`) the derived fields obey the formulas;
in particular `premium_usd = 0.05 * 2500 / 1 = 125`. -/
theorem format_data_derived_fields_witness :
    (sample_clean.time_to_expiry =
      ((sample_clean.expiration - 0) / (60 * 60 * 24)) / 365 ∧
     sample_clean.premium_usd = sample_clean.premium * 2500 / sample_clean.amount) ∧
    sample_clean.premium_usd = 125 :=
  ⟨format_data_derived_fields sample_resp "q" 0 2500 "ETH" [sample_clean]
      sample_format_eval sample_clean (by simp), rfl⟩

/-- C9: `__init__` accepts any asset string without validation; a
lower-cased value of `bitcoin` yields ticker `WBTC` and every other value,
known or not, yields `ETH`; no error is possible (`init_ticker` is total). -/
theorem init_ticker_spec (asset : String) :
    (str_lower asset = "bitcoin" → init_ticker asset = "WBTC") ∧
    (str_lower asset ≠ "bitcoin" → init_ticker asset = "ETH") := by
  constructor <;> intro h <;> simp [init_ticker, h]

/-- Witness for C9: mixed-case `BiTcOiN` maps to `WBTC`; the unknown asset
name `Solana` maps to `ETH` without error. -/
theorem init_ticker_spec_witness :
    init_ticker "BiTcOiN" = "WBTC" ∧ init_ticker "Solana" = "ETH" :=
  ⟨(init_ticker_spec "BiTcOiN").1 (by decide),
   (init_ticker_spec "Solana").2 (by decide)⟩

/-- C10: option-type normalization maps exactly the string `CALL` to `c`
and every other value, `PUT` or otherwise, to `p`; and the filter never
inspects the type field, so no row is rejected for an unrecognized type. -/
theorem normalize_type_spec :
    (∀ t, (normalize_type t = "c" ↔ t = "CALL") ∧
          (normalize_type t = "p" ↔ t ≠ "CALL")) ∧
    ∀ (r : NumOption) (now : ℚ) (ticker t : String),
      keep_row now ticker { r with type := t } = keep_row now ticker r := by
  constructor
  · intro t
    by_cases h : t = "CALL"
    · subst h
      constructor <;> simp [normalize_type]
    · constructor <;> simp [normalize_type, h]
  · intro r now ticker t
    rfl

/-- Signature of the external implied-volatility solver called in lines
92-97: `iv(price, S, K, t, r, flag)` from `py_vollib`.  The library is not
part of this repository, so the solver is a parameter; `.error` models a
raised exception (non-convergence or any numerical error), which line 98
catches with a bare `except:`. -/
abbrev IvSolver := ℚ → ℚ → ℚ → ℚ → ℚ → String → Except Unit ℚ

/-- One iteration of the loop of lines 90-101: solve for the row's implied
volatility with `price = premium_usd`, `S = spot`, `K = strike`,
`t = time_to_expiry`, `r = 0`, `flag = type`; on an exception store NaN. -/
def iv_row (ivFn : IvSolver) (spot : ℚ) (o : CleanOption) : RVal :=
  match ivFn o.premium_usd spot o.strike o.time_to_expiry 0 o.type with
  | Except.ok v => some v
  | Except.error _ => none

/-- Embedding of `GetData.get_iv` (lines 76-103): call `format_data`
(line 89, a fresh download) and map `iv_row` over its rows in order. -/
def get_iv (ivFn : IvSolver) (resp : QueryResponse) (query : String)
    (now spot : ℚ) (ticker : String) : Except String (List RVal) :=
  match format_data resp query now spot ticker with
  | Except.error e => Except.error e
  | Except.ok df => Except.ok (df.map (iv_row ivFn spot))

/-- External Greek evaluators `gn.delta`, `gn.gamma`, `gn.theta`, `gn.vega`
of lines 119-145, each called as `f(S, K, t, r, sigma, flag)`.  `sigma` is
the `iv` column and may be NaN, hence `RVal`; each call may raise
(`.error`, caught by line 148) or return a float that may itself be NaN. -/
structure GreekLib where
  delta : ℚ → ℚ → ℚ → ℚ → RVal → String → Except Unit RVal
  gamma : ℚ → ℚ → ℚ → ℚ → RVal → String → Except Unit RVal
  theta : ℚ → ℚ → ℚ → ℚ → RVal → String → Except Unit RVal
  vega : ℚ → ℚ → ℚ → ℚ → RVal → String → Except Unit RVal

/-- Raw (unnegated) Greeks of one row, as collected by `greek_store.append`
(lines 118-149): the four values when every call returns, a row of NaN when
any call raises. -/
def raw_greeks (lib : GreekLib) (spot : ℚ) (o : CleanOption) (sigma : RVal) :
    RVal × RVal × RVal × RVal :=
  match lib.delta spot o.strike o.time_to_expiry 0 sigma o.type,
        lib.gamma spot o.strike o.time_to_expiry 0 sigma o.type,
        lib.theta spot o.strike o.time_to_expiry 0 sigma o.type,
        lib.vega spot o.strike o.time_to_expiry 0 sigma o.type with
  | Except.ok d, Except.ok g, Except.ok th, Except.ok v => (d, g, th, v)
  | _, _, _, _ => (none, none, none, none)

/-- Multiplication of one stored value by `-1` (line 151); a pandas NaN
stays NaN. -/
def neg_rval (x : RVal) : RVal := x.map (fun q => -q)

/-- Reported Greeks of one row: the raw row multiplied by `-1`
(line 151, `pd.DataFrame(greek_store)*-1`). -/
def reported_greeks (lib : GreekLib) (spot : ℚ) (o : CleanOption)
    (sigma : RVal) : RVal × RVal × RVal × RVal :=
  (neg_rval (raw_greeks lib spot o sigma).1,
   neg_rval (raw_greeks lib spot o sigma).2.1,
   neg_rval (raw_greeks lib spot o sigma).2.2.1,
   neg_rval (raw_greeks lib spot o sigma).2.2.2)

/-- Embedding of `GetData.get_greeks` (lines 105-154): fetch the cleaned
table (line 113), attach the `iv` column (line 114, which re-runs the whole
download via `get_iv`), compute and negate the Greeks per row, and
concatenate them to the table (line 153).  The two downloads see the same
response in this embedding, so the `iv` column lines up with the table. -/
def get_greeks (lib : GreekLib) (ivFn : IvSolver) (resp : QueryResponse)
    (query : String) (now spot : ℚ) (ticker : String) :
    Except String (List (CleanOption × RVal × (RVal × RVal × RVal × RVal))) :=
  match format_data resp query now spot ticker with
  | Except.error e => Except.error e
  | Except.ok df =>
    match get_iv ivFn resp query now spot ticker with
    | Except.error e => Except.error e
    | Except.ok ivs =>
      Except.ok ((df.zip ivs).map (fun p =>
        (p.1, p.2, reported_greeks lib spot p.1 p.2)))

/-- Instrumented `run_query`: its result paired with the number of
query-API POST requests performed (always one, line 38). -/
def run_query_fetch (resp : QueryResponse) (query : String) :
    Except String (List RawOption) × Nat :=
  (run_query resp query, 1)

/-- Instrumented `format_data`: line 61 runs `run_query` exactly once
before any cleaning, so the call performs the fetch of that single
`run_query` invocation even when the cleaning later raises. -/
def format_data_fetch (resp : QueryResponse) (query : String) (now spot : ℚ)
    (ticker : String) : Except String (List CleanOption) × Nat :=
  match run_query_fetch resp query with
  | (Except.error e, n) => (Except.error e, n)
  | (Except.ok df, n) => (clean_rows df now spot ticker, n)

/-- Instrumented `get_iv`: line 89 invokes `format_data`, hence one fresh
query-API fetch per `get_iv` call; the solver loop performs no network
activity. -/
def get_iv_fetch (ivFn : IvSolver) (resp : QueryResponse) (query : String)
    (now spot : ℚ) (ticker : String) : Except String (List RVal) × Nat :=
  match format_data_fetch resp query now spot ticker with
  | (Except.error e, n) => (Except.error e, n)
  | (Except.ok df, n) => (Except.ok (df.map (iv_row ivFn spot)), n)

/-- Instrumented `get_greeks`: line 113 invokes `format_data` and line 114
invokes `get_iv`, each of which performs its own query-API fetch; when the
line 113 call raises, the line 114 call never runs. -/
def get_greeks_fetch (lib : GreekLib) (ivFn : IvSolver)
    (resp : QueryResponse) (query : String) (now spot : ℚ) (ticker : String) :
    Except String (List (CleanOption × RVal × (RVal × RVal × RVal × RVal))) × Nat :=
  match format_data_fetch resp query now spot ticker with
  | (Except.error e, n) => (Except.error e, n)
  | (Except.ok df, n1) =>
    match get_iv_fetch ivFn resp query now spot ticker with
    | (Except.error e, n2) => (Except.error e, n1 + n2)
    | (Except.ok ivs, n2) =>
      (Except.ok ((df.zip ivs).map (fun p =>
        (p.1, p.2, reported_greeks lib spot p.1 p.2))), n1 + n2)

/-- Total blocking network calls of one full pipeline run: the spot-price
GET of `__init__` (line 32) plus the query-API POSTs of one `get_greeks`
invocation. -/
def pipeline_network_calls (lib : GreekLib) (ivFn : IvSolver)
    (resp : QueryResponse) (query : String) (now spot : ℚ)
    (ticker : String) : Nat :=
  1 + (get_greeks_fetch lib ivFn resp query now spot ticker).2

/-- Evaluation lemma: `format_data_fetch` returns the `format_data` result
together with exactly one fetch. -/
theorem format_data_fetch_eq (resp : QueryResponse) (query : String)
    (now spot : ℚ) (ticker : String) :
    format_data_fetch resp query now spot ticker =
      (format_data resp query now spot ticker, 1) := by
  unfold format_data_fetch run_query_fetch format_data
  cases hq : run_query resp query <;> simp

/-- Evaluation lemma: `get_iv_fetch` returns the `get_iv` result together
with exactly one fetch. -/
theorem get_iv_fetch_eq (ivFn : IvSolver) (resp : QueryResponse)
    (query : String) (now spot : ℚ) (ticker : String) :
    get_iv_fetch ivFn resp query now spot ticker =
      (get_iv ivFn resp query now spot ticker, 1) := by
  unfold get_iv_fetch get_iv
  rw [format_data_fetch_eq]
  cases hf : format_data resp query now spot ticker <;> simp

/-- Evaluation lemma: the instrumented `get_greeks` agrees with
`get_greeks` on its result component. -/
theorem get_greeks_fetch_fst (lib : GreekLib) (ivFn : IvSolver)
    (resp : QueryResponse) (query : String) (now spot : ℚ) (ticker : String) :
    (get_greeks_fetch lib ivFn resp query now spot ticker).1 =
      get_greeks lib ivFn resp query now spot ticker := by
  unfold get_greeks_fetch get_greeks
  rw [format_data_fetch_eq, get_iv_fetch_eq]
  cases hf : format_data resp query now spot ticker <;>
    cases hi : get_iv ivFn resp query now spot ticker <;> simp

/-- Helper: every entry of a successful `get_greeks` result carries exactly
the negated Greeks computed from its own row and its own `iv` value. -/
theorem get_greeks_mem_reported (lib : GreekLib) (ivFn : IvSolver)
    (resp : QueryResponse) (query : String) (now spot : ℚ) (ticker : String)
    (out : List (CleanOption × RVal × (RVal × RVal × RVal × RVal)))
    (hout : get_greeks lib ivFn resp query now spot ticker = Except.ok out) :
    ∀ o sigma rep, (o, sigma, rep) ∈ out →
      rep = reported_greeks lib spot o sigma := by
  intro o sigma rep hmem
  unfold get_greeks at hout
  split at hout
  · simp at hout
  · split at hout
    · simp at hout
    · simp only [Except.ok.injEq] at hout
      subst hout
      simp only [List.mem_map] at hmem
      obtain ⟨⟨o', sigma'⟩, _, heq⟩ := hmem
      simp only [Prod.mk.injEq] at heq
      obtain ⟨rfl, rfl, h⟩ := heq
      exact h.symm

/-- C2: for every row of a successful `get_greeks` output, whenever a raw
(unnegated) Greek value is a number, the reported value for that Greek is
`-1` times it, for all four Greeks. -/
theorem get_greeks_sign_flip (lib : GreekLib) (ivFn : IvSolver)
    (resp : QueryResponse) (query : String) (now spot : ℚ) (ticker : String)
    (out : List (CleanOption × RVal × (RVal × RVal × RVal × RVal)))
    (hout : get_greeks lib ivFn resp query now spot ticker = Except.ok out) :
    ∀ o sigma rep, (o, sigma, rep) ∈ out →
      (∀ x, (raw_greeks lib spot o sigma).1 = some x → rep.1 = some (-1 * x)) ∧
      (∀ x, (raw_greeks lib spot o sigma).2.1 = some x → rep.2.1 = some (-1 * x)) ∧
      (∀ x, (raw_greeks lib spot o sigma).2.2.1 = some x → rep.2.2.1 = some (-1 * x)) ∧
      (∀ x, (raw_greeks lib spot o sigma).2.2.2 = some x → rep.2.2.2 = some (-1 * x)) := by
  intro o sigma rep hmem
  have hrep := get_greeks_mem_reported lib ivFn resp query now spot ticker out
    hout o sigma rep hmem
  subst hrep
  refine ⟨?_, ?_, ?_, ?_⟩ <;> intro x hx <;>
    simp [reported_greeks, neg_rval, hx, neg_one_mul]

/-- Constant Greek library used as a concrete instance of the external
solver: every evaluator returns fixed numbers 1, 2, 3, 4. -/
def num_lib : GreekLib where
  delta := fun _ _ _ _ _ _ => Except.ok (some 1)
  gamma := fun _ _ _ _ _ _ => Except.ok (some 2)
  theta := fun _ _ _ _ _ _ => Except.ok (some 3)
  vega := fun _ _ _ _ _ _ => Except.ok (some 4)

/-- Constant solver: converges to volatility 1 on every row. -/
def const_iv : IvSolver := fun _ _ _ _ _ _ => Except.ok 1

/-- Failing solver: raises on every row. -/
def failing_iv : IvSolver := fun _ _ _ _ _ _ => Except.error ()

/-- Witness for C2: on the sample row with volatility 1 and raw Greeks
(1, 2, 3, 4), the reported Greeks are (-1, -2, -3, -4). -/
theorem get_greeks_sign_flip_witness :
    (reported_greeks num_lib 2500 sample_clean (some 1)).1 = some (-1 * 1) ∧
    (reported_greeks num_lib 2500 sample_clean (some 1)).2.1 = some (-1 * 2) ∧
    (reported_greeks num_lib 2500 sample_clean (some 1)).2.2.1 = some (-1 * 3) ∧
    (reported_greeks num_lib 2500 sample_clean (some 1)).2.2.2 = some (-1 * 4) := by
  have hgg : get_greeks num_lib const_iv sample_resp "q" 0 2500 "ETH" =
      Except.ok [(sample_clean, some 1,
        reported_greeks num_lib 2500 sample_clean (some 1))] := by
    simp [get_greeks, get_iv, sample_format_eval, iv_row, const_iv]
  have h := get_greeks_sign_flip num_lib const_iv sample_resp "q" 0 2500 "ETH"
    _ hgg sample_clean (some 1)
    (reported_greeks num_lib 2500 sample_clean (some 1)) (by simp)
  exact ⟨h.1 1 rfl, h.2.1 2 rfl, h.2.2.1 3 rfl, h.2.2.2 4 rfl⟩

/-- NaN-strictness of the external Greek evaluators: on a NaN volatility
they never return a non-NaN number (they return NaN or raise).  This
models the IEEE NaN propagation of the numerical routines behind
`gn.delta`, `gn.gamma`, `gn.theta` and `gn.vega`, which the pipeline
relies on for rows whose `iv` column is NaN. -/
def NaNStrict (lib : GreekLib) : Prop :=
  ∀ S K t r flag,
    (∀ v, lib.delta S K t r none flag = Except.ok v → v = none) ∧
    (∀ v, lib.gamma S K t r none flag = Except.ok v → v = none) ∧
    (∀ v, lib.theta S K t r none flag = Except.ok v → v = none) ∧
    (∀ v, lib.vega S K t r none flag = Except.ok v → v = none)

/-- Helper: a NaN-strict library yields an all-NaN raw Greek row on a NaN
volatility, whether the evaluators raise or return NaN. -/
theorem raw_greeks_nan (lib : GreekLib) (hlib : NaNStrict lib) (spot : ℚ)
    (o : CleanOption) :
    raw_greeks lib spot o none = (none, none, none, none) := by
  obtain ⟨hD, hG, hT, hV⟩ := hlib spot o.strike o.time_to_expiry 0 o.type
  unfold raw_greeks
  rcases hd : lib.delta spot o.strike o.time_to_expiry 0 none o.type with e1 | d
  · rfl
  · rcases hg : lib.gamma spot o.strike o.time_to_expiry 0 none o.type with e2 | g
    · rfl
    · rcases ht : lib.theta spot o.strike o.time_to_expiry 0 none o.type with e3 | th
      · rfl
      · rcases hv : lib.vega spot o.strike o.time_to_expiry 0 none o.type with e4 | v
        · rfl
        · rw [hD d hd, hG g hg, hT th ht, hV v hv]

/-- C3: for every row of a successful `get_greeks` output whose implied
volatility is NaN, all four reported Greek fields are NaN, given that the
external evaluators are NaN-strict. -/
theorem get_greeks_missing_iv_missing_greeks (lib : GreekLib)
    (ivFn : IvSolver) (resp : QueryResponse) (query : String) (now spot : ℚ)
    (ticker : String)
    (out : List (CleanOption × RVal × (RVal × RVal × RVal × RVal)))
    (hlib : NaNStrict lib)
    (hout : get_greeks lib ivFn resp query now spot ticker = Except.ok out) :
    ∀ o rep, (o, (none : RVal), rep) ∈ out → rep = (none, none, none, none) := by
  intro o rep hmem
  have h := get_greeks_mem_reported lib ivFn resp query now spot ticker out
    hout o none rep hmem
  rw [h]
  simp [reported_greeks, raw_greeks_nan lib hlib spot o, neg_rval]

/-- Constant Greek library echoing its volatility argument: a NaN-strict
instance of the external solver. -/
def echo_lib : GreekLib where
  delta := fun _ _ _ _ sigma _ => Except.ok sigma
  gamma := fun _ _ _ _ sigma _ => Except.ok sigma
  theta := fun _ _ _ _ sigma _ => Except.ok sigma
  vega := fun _ _ _ _ sigma _ => Except.ok sigma

/-- Witness for C3: with a failing solver the sample row's `iv` is NaN and
all four of its reported Greeks are NaN. -/
theorem get_greeks_missing_iv_missing_greeks_witness :
    reported_greeks echo_lib 2500 sample_clean none = (none, none, none, none) := by
  have hstrict : NaNStrict echo_lib := by
    intro S K t r flag
    refine ⟨?_, ?_, ?_, ?_⟩ <;> intro v hv <;> exact (Except.ok.inj hv).symm
  have hgg : get_greeks echo_lib failing_iv sample_resp "q" 0 2500 "ETH" =
      Except.ok [(sample_clean, none,
        reported_greeks echo_lib 2500 sample_clean none)] := by
    simp [get_greeks, get_iv, sample_format_eval, iv_row, failing_iv]
  exact get_greeks_missing_iv_missing_greeks echo_lib failing_iv sample_resp
    "q" 0 2500 "ETH" _ hstrict hgg sample_clean
    (reported_greeks echo_lib 2500 sample_clean none) (by simp)

/-- C8: when the cleaned table is available, `get_iv` returns one
volatility per row in the same order (a list of the table's length); a row
on which the solver raises gets NaN, a row on which it converges gets the
solved value; no solver exception escapes (`get_iv` still returns a list). -/
theorem get_iv_per_row_spec (ivFn : IvSolver) (resp : QueryResponse)
    (query : String) (now spot : ℚ) (ticker : String)
    (df : List CleanOption)
    (hdf : format_data resp query now spot ticker = Except.ok df) :
    ∃ ivs, get_iv ivFn resp query now spot ticker = Except.ok ivs ∧
      ivs.length = df.length ∧
      ∀ (i : Nat) (h : i < df.length),
        ((∃ e, ivFn df[i].premium_usd spot df[i].strike df[i].time_to_expiry 0
            df[i].type = Except.error e) → ivs[i]? = some none) ∧
        ∀ v, ivFn df[i].premium_usd spot df[i].strike df[i].time_to_expiry 0
            df[i].type = Except.ok v → ivs[i]? = some (some v) := by
  refine ⟨df.map (iv_row ivFn spot), ?_, by simp, ?_⟩
  · unfold get_iv
    rw [hdf]
  · intro i h
    constructor
    · rintro ⟨e, he⟩
      simp [List.getElem?_map, List.getElem?_eq_getElem h, iv_row, he]
    · intro v hv
      simp [List.getElem?_map, List.getElem?_eq_getElem h, iv_row, hv]

/-- Witness for C8: on the sample table the constant solver yields exactly
one volatility entry, characterized per index. -/
theorem get_iv_per_row_spec_witness :
    ∃ ivs, get_iv const_iv sample_resp "q" 0 2500 "ETH" = Except.ok ivs ∧
      ivs.length = [sample_clean].length ∧
      ∀ (i : Nat) (h : i < [sample_clean].length),
        ((∃ e, const_iv [sample_clean][i].premium_usd 2500 [sample_clean][i].strike
            [sample_clean][i].time_to_expiry 0 [sample_clean][i].type =
              Except.error e) → ivs[i]? = some none) ∧
        ∀ v, const_iv [sample_clean][i].premium_usd 2500 [sample_clean][i].strike
            [sample_clean][i].time_to_expiry 0 [sample_clean][i].type =
              Except.ok v → ivs[i]? = some (some v) :=
  get_iv_per_row_spec const_iv sample_resp "q" 0 2500 "ETH" [sample_clean]
    sample_format_eval

/-- Counterexample for C6: on a successful run over the sample data,
a single `get_greeks` invocation performs two query-API fetches, not one
(`format_data` runs once at line 113 and again inside `get_iv`, line 89). -/
theorem get_greeks_single_fetch_counterexample :
    (get_greeks_fetch echo_lib const_iv sample_resp "q" 0 2500 "ETH").2 = 2 ∧
    (get_greeks_fetch echo_lib const_iv sample_resp "q" 0 2500 "ETH").2 ≠ 1 := by
  have hgi : get_iv const_iv sample_resp "q" 0 2500 "ETH" =
      Except.ok [some 1] := by
    simp [get_iv, sample_format_eval, iv_row, const_iv]
  have h2 : (get_greeks_fetch echo_lib const_iv sample_resp "q" 0 2500 "ETH").2 = 2 := by
    simp [get_greeks_fetch, format_data_fetch_eq, get_iv_fetch_eq,
      sample_format_eval, hgi]
  exact ⟨h2, by rw [h2]; decide⟩

/-- C6 amended: whenever the cleaned table is available, one `get_greeks`
invocation performs exactly two query-API fetches (line 113 directly and
line 114 via `get_iv`), so a full pipeline run makes three blocking
network calls in total, counting the spot-price fetch of `__init__`. -/
theorem get_greeks_two_fetches (lib : GreekLib) (ivFn : IvSolver)
    (resp : QueryResponse) (query : String) (now spot : ℚ) (ticker : String)
    (df : List CleanOption)
    (hdf : format_data resp query now spot ticker = Except.ok df) :
    (get_greeks_fetch lib ivFn resp query now spot ticker).2 = 2 ∧
    pipeline_network_calls lib ivFn resp query now spot ticker = 3 := by
  have hgi : get_iv ivFn resp query now spot ticker =
      Except.ok (df.map (iv_row ivFn spot)) := by
    unfold get_iv
    rw [hdf]
  have h2 : (get_greeks_fetch lib ivFn resp query now spot ticker).2 = 2 := by
    simp [get_greeks_fetch, format_data_fetch_eq, get_iv_fetch_eq, hdf, hgi]
  exact ⟨h2, by simp [pipeline_network_calls, h2]⟩

/-- Witness for C6 amended: on the sample data, two query fetches per
`get_greeks` call and three network calls per full run. -/
theorem get_greeks_two_fetches_witness :
    (get_greeks_fetch echo_lib failing_iv sample_resp "q" 0 2500 "ETH").2 = 2 ∧
    pipeline_network_calls echo_lib failing_iv sample_resp "q" 0 2500 "ETH" = 3 :=
  get_greeks_two_fetches echo_lib failing_iv sample_resp "q" 0 2500 "ETH"
    [sample_clean] sample_format_eval

/-- Raw record whose premium field cannot be coerced to a number. -/
def bad_raw : RawOption := { sample_raw with premium := none }

/-- Counterexample for C7: adding one uncoercible row to a batch makes the
whole cleaning step raise, so the valid remaining row (which alone yields a
one-row table) is not retained: coercion failure is not isolated per row. -/
theorem format_data_coercion_abort_counterexample :
    format_data ⟨200, [sample_raw, bad_raw]⟩ "q" 0 2500 "ETH" =
      Except.error "Unable to parse string" ∧
    format_data sample_resp "q" 0 2500 "ETH" = Except.ok [sample_clean] :=
  ⟨rfl, sample_format_eval⟩

/-- Helper: a record with an uncoercible field fails `coerce_row`. -/
theorem coerce_row_none_of_bad (r : RawOption)
    (hbad : r.premium = none ∨ r.amount = none ∨ r.strike = none) :
    coerce_row r = none := by
  cases hp : r.premium <;> cases ha : r.amount <;> cases hk : r.strike <;>
    simp_all [coerce_row]

/-- Helper: the eager column coercion raises as soon as any row of the
batch fails to coerce. -/
theorem to_numeric_error_of_mem {l : List RawOption} {r : RawOption}
    (hr : r ∈ l) (hcr : coerce_row r = none) :
    to_numeric l = Except.error "Unable to parse string" := by
  induction l with
  | nil => cases hr
  | cons a as ih =>
    rcases List.mem_cons.mp hr with rfl | hmem
    · unfold to_numeric
      rw [hcr]
    · unfold to_numeric
      cases hca : coerce_row a
      · rfl
      · rw [ih hmem]

/-- C7 amended: when a premium, amount, or strike field of some row of a
successful response cannot be coerced to numeric form, the whole cleaning
step raises (no partial table), instead of invalidating only that row. -/
theorem format_data_coercion_aborts_run (resp : QueryResponse)
    (query : String) (now spot : ℚ) (ticker : String) (r : RawOption)
    (h200 : resp.status_code = 200) (hr : r ∈ resp.options)
    (hbad : r.premium = none ∨ r.amount = none ∨ r.strike = none) :
    format_data resp query now spot ticker =
      Except.error "Unable to parse string" := by
  have hq : run_query resp query = Except.ok resp.options := by
    simp [run_query, h200]
  have hn := to_numeric_error_of_mem hr (coerce_row_none_of_bad r hbad)
  unfold format_data
  rw [hq]
  show clean_rows resp.options now spot ticker = Except.error "Unable to parse string"
  unfold clean_rows
  rw [hn]

/-- Witness for C7 amended: a response holding only the uncoercible record
makes `format_data` raise. -/
theorem format_data_coercion_aborts_run_witness :
    format_data ⟨200, [bad_raw]⟩ "q" 0 2500 "ETH" =
      Except.error "Unable to parse string" :=
  format_data_coercion_aborts_run ⟨200, [bad_raw]⟩ "q" 0 2500 "ETH" bad_raw
    rfl (by simp) (Or.inl rfl)
